import Mathlib

/-!
Verification development for the logo composer in
`branding/generate_logo.py`.

The numeric geometry of the source (Python floats) is embedded over the
rationals; every formula is transcribed from the source function it names.
The SVG templating is embedded as plain `String` concatenation mirroring the
f-string templates of the source; numeric rendering is abstracted by `pyNum`
(the claims proved here do not depend on the digit strings Python would
print, only on which quantities are interpolated where).  Python exceptions
are embedded as `Except LogoError`.  The external collaborators that the
glyph-outline strategy consults (the fontTools capability, the filesystem,
the font file contents) are an explicit environment record `FontEnv`.
-/

/-- Numeric rendering abstraction: stands in for the Python float/int
formatting used inside the f-string templates.  Any fixed injection of the
rationals into strings would do for the claims below. -/
def pyNum (q : ℚ) : String := toString q

/-- The `LogoSpec` dataclass (source lines 28-38).  `size` is an `int` in the
source and a rational here; theorems that need it add `0 < size`.  The Python
field defaults are `size=512`, `ring_thickness=12.0`, `ring_margin=8.0`,
`gap=10.0`, `u_weight_pct=0.12`, `u_scale=0.6`. -/
structure LogoSpec where
  size : ℚ
  ring_thickness : ℚ
  ring_margin : ℚ
  gap : ℚ
  font_family : String
  u_weight_pct : ℚ
  u_scale : ℚ

/-- `DEFAULT_COLORS` (source line 25). -/
def DEFAULT_COLORS : List String := ["#4f46e5", "#0284c7", "#059669"]

/-- One `<stop .../>` element, the f-string template of source lines 50-52. -/
def svgStop (off col : String) : String :=
  "<stop offset=\"" ++ off ++ "\" stop-color=\"" ++ col ++ "\"/>"

/-- `LogoSpec.gradient_stops` (source lines 40-54): normalise the colour list
(1 colour is tripled, 2 colours duplicate the second) and join three stop
elements at offsets 0 percent, 50 percent, 100 percent with newlines.  The
source indexes `c[0]`, `c[1]`, `c[2]` directly and would raise `IndexError`
on an empty list; `getD` makes the embedding total, and every claim about
this function restricts the input to lengths 1, 2 or 3, where `getD` and
Python indexing agree. -/
def gradient_stops (colors : List String) : String :=
  let c := colors
  let c := if c.length = 1 then [c.getD 0 "", c.getD 0 "", c.getD 0 ""]
    else if c.length = 2 then [c.getD 0 "", c.getD 1 "", c.getD 1 ""]
    else c
  String.intercalate "\n"
    [svgStop "0%" (c.getD 0 ""), svgStop "50%" (c.getD 1 ""), svgStop "100%" (c.getD 2 "")]

/-- Ring outer radius, source line 215: `max(0.0, (s / 2) - spec.ring_margin)`. -/
def ring_outer_r (spec : LogoSpec) : ℚ := max 0 (spec.size / 2 - spec.ring_margin)

/-- Ring inner radius, source line 216: `max(0.0, ring_outer_r - spec.ring_thickness)`. -/
def ring_inner_r (spec : LogoSpec) : ℚ := max 0 (ring_outer_r spec - spec.ring_thickness)

/-- Available glyph diameter as computed by `_manual_letter_path`, source
line 62: `max(0.0, 2 * ring_inner_r - 2 * spec.gap)`. -/
def manual_available_d (spec : LogoSpec) (ring_inner_r : ℚ) : ℚ :=
  max 0 (2 * ring_inner_r - 2 * spec.gap)

/-- Available glyph diameter as computed by `_text_letter`, source line 102
(same formula, recomputed in that function). -/
def text_available_d (spec : LogoSpec) (ring_inner_r : ℚ) : ℚ :=
  max 0 (2 * ring_inner_r - 2 * spec.gap)

/-- Available glyph diameter as computed by `_glyph_letter`, source line 180
(same formula, recomputed in that function). -/
def glyph_available_d (spec : LogoSpec) (ring_inner_r : ℚ) : ℚ :=
  max 0 (2 * ring_inner_r - 2 * spec.gap)

/-- The first `u_box` of `_manual_letter_path`, source line 63:
`max(0.0, available_d * max(0.0, min(1.0, spec.u_scale)))`, before the
3-stroke-widths legibility floor of line 65. -/
def manual_u_box0 (spec : LogoSpec) (ring_inner_r : ℚ) : ℚ :=
  max 0 (manual_available_d spec ring_inner_r * max 0 (min 1 spec.u_scale))

/-- The first `font_size` of `_text_letter`, source line 103:
`available_d * max(0.0, min(1.0, spec.u_scale))`, before the
3-stroke-widths legibility floor of line 106. -/
def text_font_size0 (spec : LogoSpec) (ring_inner_r : ℚ) : ℚ :=
  text_available_d spec ring_inner_r * max 0 (min 1 spec.u_scale)

/-- The `target` size of `_glyph_letter`, source line 181:
`available_d * max(0.0, min(1.0, spec.u_scale))`. -/
def glyph_target (spec : LogoSpec) (ring_inner_r : ℚ) : ℚ :=
  glyph_available_d spec ring_inner_r * max 0 (min 1 spec.u_scale)

/-- The uniform scale of `_glyph_letter`, source line 183:
`target / max(width, height, 1.0)`. -/
def glyph_scale (spec : LogoSpec) (ring_inner_r width height : ℚ) : ℚ :=
  glyph_target spec ring_inner_r / max width (max height 1)

/-- Requested glyph stroke width, source line 184 (also lines 64 and 104):
`max(1.0, spec.size * spec.u_weight_pct)`. -/
def glyph_stroke_w (spec : LogoSpec) : ℚ := max 1 (spec.size * spec.u_weight_pct)

/-- Stroke width written into the SVG path in stroked glyph mode, source
line 202: `max(0.5, stroke_w / max(scale, 1e-6))`. -/
def glyph_stroke_attr (spec : LogoSpec) (ring_inner_r width height : ℚ) : ℚ :=
  max (1/2) (glyph_stroke_w spec / max (glyph_scale spec ring_inner_r width height) (1/1000000))

/-- Horizontal centering delta of `_glyph_letter`, source lines 173-178: in
`advance` mode `advance_width/2 - (xmin + width/2)`, otherwise `0.0`. -/
def glyph_delta_x (glyph_center : String) (xmin width advance_width : ℚ) : ℚ :=
  if glyph_center = "advance" then advance_width / 2 - (xmin + width / 2) else 0

/-- Horizontal glyph center used by the transform, source line 187:
`xmin + width / 2.0 + delta_x`. -/
def glyph_center_x (glyph_center : String) (xmin width advance_width : ℚ) : ℚ :=
  xmin + width / 2 + glyph_delta_x glyph_center xmin width advance_width

/-- `_manual_letter_path` (source lines 57-93): the hand-authored P path.
Every binding mirrors the source line by line; the returned string is the
rstripped f-string template of lines 85-93 (rstrip keeps the leading
newline). -/
def manual_letter_path (spec : LogoSpec) (cx cy ring_inner_r : ℚ)
    (colors : List String) (gradient_id : String) : String :=
  let s := spec.size
  let available_d := manual_available_d spec ring_inner_r
  let u_box := manual_u_box0 spec ring_inner_r
  let u_stroke := max 1 (s * spec.u_weight_pct)
  let u_box := max u_box (u_stroke * 3)
  let left_x := cx - u_box / 2
  let right_x := cx + u_box / 2
  let top_y := cy - u_box / 2
  let bottom_y := cy + u_box / 2
  let pad := u_box * 0.12
  let eff_left := left_x + pad
  let eff_right := right_x - pad
  let eff_top := top_y + pad
  let eff_bottom := bottom_y - pad
  let eff_w := max 1 (eff_right - eff_left)
  let eff_h := max 1 (eff_bottom - eff_top)
  let stem_x := eff_left
  let bowl_w := max (u_stroke * 2) (eff_w * 0.60)
  let x_right := eff_left + bowl_w
  let r_w := bowl_w / 2
  let r_h := (eff_h * 0.58) / 2
  let r := max 1 (min r_w r_h - u_stroke / 2)
  let bowl_bottom_y := eff_top + 2 * r
  let bowl_bottom_y := min bowl_bottom_y (eff_bottom - u_stroke / 2)
  -- available_d only feeds u_box (via manual_u_box0), as in the source
  let _ := available_d
  "\n<!-- P letter (manual path) -->\n<path d=\"M " ++ pyNum stem_x ++ " "
    ++ pyNum eff_bottom ++ "\n        L " ++ pyNum stem_x ++ " " ++ pyNum eff_top
    ++ "\n        L " ++ pyNum (x_right - r) ++ " " ++ pyNum eff_top
    ++ "\n        A " ++ pyNum r ++ " " ++ pyNum r ++ " 0 0 1 "
    ++ pyNum (x_right - r) ++ " " ++ pyNum bowl_bottom_y
    ++ "\n        L " ++ pyNum stem_x ++ " " ++ pyNum bowl_bottom_y
    ++ "\"\n        fill=\"none\" stroke=\"url(#" ++ gradient_id
    ++ ")\" stroke-width=\"" ++ pyNum u_stroke
    ++ "\" stroke-linecap=\"round\" stroke-linejoin=\"round\"/>"

/-- `_text_letter` (source lines 96-121): render the letter with an SVG text
element.  `font_size` starts as `available_d * max(0, min(1, u_scale))`
(line 103, embedded as `text_font_size0`) and is floored to three stroke
widths (line 106). -/
def text_letter (spec : LogoSpec) (cx cy ring_inner_r : ℚ) (letter : Char)
    (gradient_id : String) (fill_letter : Bool) : String :=
  let font_size := text_font_size0 spec ring_inner_r
  let stroke_w := max 1 (spec.size * spec.u_weight_pct)
  let font_size := max font_size (stroke_w * 3)
  if fill_letter then
    "\n<!-- Letter (font text, filled) -->\n<text x=\"" ++ pyNum cx ++ "\" y=\""
      ++ pyNum cy ++ "\" text-anchor=\"middle\" dominant-baseline=\"middle\"\n        font-family=\""
      ++ spec.font_family ++ "\" font-size=\"" ++ pyNum font_size
      ++ "\" dy=\"0.05em\"\n        fill=\"url(#" ++ gradient_id ++ ")\">"
      ++ String.singleton letter ++ "</text>"
  else
    "\n<!-- Letter (font text, stroked) -->\n<text x=\"" ++ pyNum cx ++ "\" y=\""
      ++ pyNum cy ++ "\" text-anchor=\"middle\" dominant-baseline=\"middle\"\n        font-family=\""
      ++ spec.font_family ++ "\" font-size=\"" ++ pyNum font_size
      ++ "\" dy=\"0.05em\"\n        fill=\"none\" stroke=\"url(#" ++ gradient_id
      ++ ")\" stroke-width=\"" ++ pyNum stroke_w
      ++ "\" stroke-linejoin=\"round\" stroke-linecap=\"round\">"
      ++ String.singleton letter ++ "</text>"

/-- Errors raised by the source, embedded as values: `RuntimeError` (missing
fontTools capability, line 132), `FileNotFoundError` (line 135) and
`ValueError` (line 141). -/
inductive LogoError where
  | runtimeError (msg : String)
  | fileNotFound (msg : String)
  | valueError (msg : String)
deriving DecidableEq

/-- Contents of one font file as seen through the fontTools calls the source
makes: `getBestCmap` (codepoint to glyph name), `SVGPathPen` commands for a
glyph, the glyf-table bounding box, `head.unitsPerEm`, and the `hmtx` entry
(advance width and left side bearing).  `glyfBBox` is `none` when the glyf
table is absent, the lookup raises, or any of the four attributes is missing;
the source covers those cases with a try/except plus a `None` test
(lines 150-164). -/
structure FontData where
  cmap : Nat → Option String
  glyphPath : String → String
  glyfBBox : String → Option (ℚ × ℚ × ℚ × ℚ)
  unitsPerEm : ℚ
  hmtx : String → ℚ × ℚ

/-- Ambient environment consulted by the glyph-outline strategy: whether the
fontTools import succeeds, which paths `os.path.isfile` accepts, and what
`TTFont` reads from a path. -/
structure FontEnv where
  fontToolsAvailable : Bool
  fileExists : String → Bool
  loadFont : String → FontData

/-- `_glyph_letter` (source lines 124-208): convert the letter to an exact
outline path.  The capability check (line 128-132) precedes the file check
(line 134-135), which precedes the font read (line 137); the geometry uses
the named definitions above, each transcribed from its source line.  The
source message around the letter uses single quotes, omitted here. -/
def glyph_letter (env : FontEnv) (spec : LogoSpec) (cx cy ring_inner_r : ℚ)
    (letter : Char) (gradient_id : String) (font_file : String)
    (glyph_center : String) (fill_letter : Bool) : Except LogoError String :=
  if env.fontToolsAvailable = false then
    .error (.runtimeError "Glyph mode requires fontTools. Install with: pip install fonttools")
  else if env.fileExists font_file = false then
    .error (.fileNotFound ("Font file not found: " ++ font_file))
  else
    let font := env.loadFont font_file
    match font.cmap letter.toNat with
    | none => .error (.valueError ("Letter " ++ String.singleton letter ++ " not in font cmap"))
    | some glyph_name =>
      let d := font.glyphPath glyph_name
      let bb := match font.glyfBBox glyph_name with
        | some bb => bb
        | none => (0, 0, font.unitsPerEm, font.unitsPerEm)
      let xmin := bb.1
      let ymin := bb.2.1
      let xmax := bb.2.2.1
      let ymax := bb.2.2.2
      let width := xmax - xmin
      let height := ymax - ymin
      let advance_width := (font.hmtx glyph_name).1
      let scale := glyph_scale spec ring_inner_r width height
      let center_x := glyph_center_x glyph_center xmin width advance_width
      let center_y := ymin + height / 2
      let transform := "translate(" ++ pyNum cx ++ "," ++ pyNum cy ++ ") scale("
        ++ pyNum scale ++ ", " ++ pyNum (-scale) ++ ") translate("
        ++ pyNum (-center_x) ++ "," ++ pyNum (-center_y) ++ ")"
      if fill_letter then
        .ok ("\n<!-- Letter (glyph path, filled) -->\n<g transform=\"" ++ transform
          ++ "\">\n    <path d=\"" ++ d ++ "\" fill=\"url(#" ++ gradient_id ++ ")\" />\n</g>")
      else
        let stroke_attr := glyph_stroke_attr spec ring_inner_r width height
        .ok ("\n<!-- Letter (glyph path, stroked) -->\n<g transform=\"" ++ transform
          ++ "\">\n    <path d=\"" ++ d ++ "\" fill=\"none\" stroke=\"url(#" ++ gradient_id
          ++ ")\" stroke-width=\"" ++ pyNum stroke_attr
          ++ "\" stroke-linecap=\"round\" stroke-linejoin=\"round\"/>\n</g>")

/-- One `<circle .../>` ring element, the template of source line 236, with
center, draw radius and stroke width as arguments. -/
def svgCircle (cx cy r w : ℚ) : String :=
  "<circle cx=\"" ++ pyNum cx ++ "\" cy=\"" ++ pyNum cy ++ "\" r=\"" ++ pyNum r
    ++ "\" fill=\"none\" stroke=\"url(#grad-stroke)\" stroke-width=\"" ++ pyNum w
    ++ "\" stroke-linecap=\"round\"/>"

/-- The ring circle emitted by `make_svg`, source line 236: draw radius
`(ring_outer_r + ring_inner_r)/2`, stroke width `ring_outer_r - ring_inner_r`. -/
def ringCircleElem (spec : LogoSpec) : String :=
  svgCircle (spec.size / 2) (spec.size / 2)
    ((ring_outer_r spec + ring_inner_r spec) / 2)
    (ring_outer_r spec - ring_inner_r spec)

/-- The assembled SVG document of `make_svg` (source lines 220-246) for a
given letter element.  The source wraps the template in a leading and a
trailing newline and calls `.strip()`, which removes exactly those two
characters; the stripped result is embedded directly.  `gradient_id` is the
local constant `"grad"` (line 218). -/
def svgDocument (spec : LogoSpec) (colors : List String) (letterElem : String) : String :=
  "<svg xmlns=\"http://www.w3.org/2000/svg\" viewBox=\"0 0 " ++ pyNum spec.size
    ++ " " ++ pyNum spec.size ++ "\" role=\"img\" aria-label=\"Periodix logo\">\n<defs>\n    <linearGradient id=\"grad\" x1=\"0%\" y1=\"0%\" x2=\"100%\" y2=\"100%\">\n    "
    ++ gradient_stops colors
    ++ "\n    </linearGradient>\n    <!-- Create a gradient stroke via a path painted once -->\n    <linearGradient id=\"grad-stroke\" x1=\"0%\" y1=\"0%\" x2=\"100%\" y2=\"100%\">\n    "
    ++ gradient_stops colors
    ++ "\n    </linearGradient>\n</defs>\n\n<!-- Background transparent -->\n<rect width=\"100%\" height=\"100%\" fill=\"none\"/>\n\n<!-- Outer ring using stroke -->\n"
    ++ ringCircleElem spec ++ "\n\n" ++ letterElem ++ "\n</svg>"

/-- `make_svg` (source lines 211-248): compute the ring geometry, pick the
letter strategy by the mode string (manual, text, otherwise glyph with
`font_file or ""`), and assemble the document.  An exception escaping the
glyph strategy aborts the whole call, so the result is `Except`. -/
def make_svg (env : FontEnv) (spec : LogoSpec) (colors : List String) (letter : Char)
    (letter_mode : String) (font_file : Option String) (glyph_center : String)
    (fill_letter : Bool) : Except LogoError String :=
  let s := spec.size
  let cx := s / 2
  let cy := s / 2
  let letterElem : Except LogoError String :=
    if letter_mode = "manual" then
      .ok (manual_letter_path spec cx cy (ring_inner_r spec) colors "grad")
    else if letter_mode = "text" then
      .ok (text_letter spec cx cy (ring_inner_r spec) letter "grad" fill_letter)
    else
      glyph_letter env spec cx cy (ring_inner_r spec) letter "grad"
        (font_file.getD "") glyph_center fill_letter
  match letterElem with
  | .error e => .error e
  | .ok el => .ok (svgDocument spec colors el)

/-- The default configuration of the source (its dataclass defaults), used as
the concrete input of the witnesses. -/
def specDefault : LogoSpec :=
  { size := 512, ring_thickness := 12, ring_margin := 8, gap := 10,
    font_family := "Inter", u_weight_pct := 0.12, u_scale := 0.6 }

/-- Default configuration with a gap so large that the available glyph
diameter clamps to zero and the glyph scale factor becomes zero. -/
def specBigGap : LogoSpec := { specDefault with gap := 1000 }

/-- A configuration whose ring margin exceeds half the size. -/
def specDegenerate : LogoSpec :=
  { size := 100, ring_thickness := 12, ring_margin := 60, gap := 10,
    font_family := "Inter", u_weight_pct := 0.12, u_scale := 0.6 }

/-- A trivial font value, used only to close environments in witnesses. -/
def dummyFont : FontData :=
  { cmap := fun _ => none, glyphPath := fun _ => "", glyfBBox := fun _ => none,
    unitsPerEm := 1000, hmtx := fun _ => (0, 0) }

/-- Environment in which fontTools is importable but no path exists. -/
def envNoFiles : FontEnv :=
  { fontToolsAvailable := true, fileExists := fun _ => false,
    loadFont := fun _ => dummyFont }

/-- Clamped scale fractions are nonnegative. -/
lemma clamp_nonneg (x : ℚ) : 0 ≤ max 0 (min 1 x) := le_max_left 0 _

/-- Clamped scale fractions are at most one. -/
lemma clamp_le_one (x : ℚ) : max 0 (min 1 x) ≤ 1 :=
  max_le zero_le_one (min_le_left 1 x)

/-- C1: for every spec with positive size, the ring outer radius is
`max 0 (size/2 - ring_margin)`, the inner radius is
`max 0 (outer - ring_thickness)`, and the emitted ring circle carries draw
radius `(outer + inner)/2` and stroke width `outer - inner`. -/
theorem ring_geometry_matches_spec (spec : LogoSpec) (h : 0 < spec.size) :
    ring_outer_r spec = max 0 (spec.size / 2 - spec.ring_margin) ∧
    ring_inner_r spec = max 0 (ring_outer_r spec - spec.ring_thickness) ∧
    ringCircleElem spec = svgCircle (spec.size / 2) (spec.size / 2)
      ((ring_outer_r spec + ring_inner_r spec) / 2)
      (ring_outer_r spec - ring_inner_r spec) :=
  ⟨rfl, rfl, rfl⟩

/-- Witness for C1 at the default configuration. -/
theorem ring_geometry_matches_spec_witness :
    (0 : ℚ) < specDefault.size ∧
    (ring_outer_r specDefault = max 0 (specDefault.size / 2 - specDefault.ring_margin) ∧
     ring_inner_r specDefault = max 0 (ring_outer_r specDefault - specDefault.ring_thickness) ∧
     ringCircleElem specDefault = svgCircle (specDefault.size / 2) (specDefault.size / 2)
       ((ring_outer_r specDefault + ring_inner_r specDefault) / 2)
       (ring_outer_r specDefault - ring_inner_r specDefault)) :=
  ⟨by norm_num [specDefault], ring_geometry_matches_spec specDefault (by norm_num [specDefault])⟩

/-- C2: for colour lists of length 1, 2 and 3, `gradient_stops` emits exactly
three stops at offsets 0, 50 and 100 percent: one colour is used for all
three stops, two colours give stops colour0, colour1, colour1, and three
colours land at the three offsets in order. -/
theorem gradient_stops_policy (a b c : String) :
    gradient_stops [a] =
      String.intercalate "\n" [svgStop "0%" a, svgStop "50%" a, svgStop "100%" a] ∧
    gradient_stops [a, b] =
      String.intercalate "\n" [svgStop "0%" a, svgStop "50%" b, svgStop "100%" b] ∧
    gradient_stops [a, b, c] =
      String.intercalate "\n" [svgStop "0%" a, svgStop "50%" b, svgStop "100%" c] :=
  ⟨rfl, rfl, rfl⟩

/-- C3 counterexample: with the default configuration and `gap = 1000` the
available diameter clamps to 0, so the scale factor is 0; the written stroke
width (floored through `max(scale, 1e-6)`) times the scale is then 0, not the
requested stroke width 61.44.  The claim as stated fails on the code. -/
theorem stroke_compensation_cex :
    glyph_stroke_attr specBigGap (ring_inner_r specBigGap) 1000 1400 *
      glyph_scale specBigGap (ring_inner_r specBigGap) 1000 1400
      ≠ glyph_stroke_w specBigGap := by
  norm_num [glyph_stroke_attr, glyph_stroke_w, glyph_scale, glyph_target, glyph_available_d, ring_inner_r, ring_outer_r, specBigGap, specDefault, max_def, min_def]

/-- C3 amended: whenever the computed scale factor is at least `1e-6` and the
requested stroke width divided by the scale factor is at least the `0.5`
floor, the stroke width written into the SVG path times the applied scale
factor equals the requested stroke width `max(1, size * u_weight_pct)`
exactly. -/
theorem stroke_compensation_amended (spec : LogoSpec) (rir width height : ℚ)
    (h1 : 1/1000000 ≤ glyph_scale spec rir width height)
    (h2 : 1/2 ≤ glyph_stroke_w spec / glyph_scale spec rir width height) :
    glyph_stroke_attr spec rir width height * glyph_scale spec rir width height
      = glyph_stroke_w spec := by
  have hpos : 0 < glyph_scale spec rir width height := lt_of_lt_of_le (by norm_num) h1
  unfold glyph_stroke_attr
  rw [max_eq_left h1, max_eq_right h2]
  exact div_mul_cancel₀ _ hpos.ne'

/-- Witness for the amended C3: default configuration, glyph bounding box
1000 by 1400 font units. -/
theorem stroke_compensation_amended_witness :
    (1/1000000 : ℚ) ≤ glyph_scale specDefault (ring_inner_r specDefault) 1000 1400 ∧
    (1/2 : ℚ) ≤ glyph_stroke_w specDefault /
      glyph_scale specDefault (ring_inner_r specDefault) 1000 1400 ∧
    glyph_stroke_attr specDefault (ring_inner_r specDefault) 1000 1400 *
      glyph_scale specDefault (ring_inner_r specDefault) 1000 1400
      = glyph_stroke_w specDefault :=
  ⟨by norm_num [glyph_stroke_attr, glyph_stroke_w, glyph_scale, glyph_target, glyph_available_d, ring_inner_r, ring_outer_r, specDefault, max_def, min_def], by norm_num [glyph_stroke_attr, glyph_stroke_w, glyph_scale, glyph_target, glyph_available_d, ring_inner_r, ring_outer_r, specDefault, max_def, min_def],
    stroke_compensation_amended specDefault (ring_inner_r specDefault) 1000 1400
      (by norm_num [glyph_stroke_attr, glyph_stroke_w, glyph_scale, glyph_target, glyph_available_d, ring_inner_r, ring_outer_r, specDefault, max_def, min_def]) (by norm_num [glyph_stroke_attr, glyph_stroke_w, glyph_scale, glyph_target, glyph_available_d, ring_inner_r, ring_outer_r, specDefault, max_def, min_def])⟩

/-- C4 counterexample: for a degenerate outline of width and height 1/2, the
code divides by `max(width, height, 1) = 1`, not by
`max(width, height) = 1/2`; at the default configuration the two differ
(271.2 versus 542.4). -/
theorem glyph_scale_cex :
    glyph_scale specDefault (ring_inner_r specDefault) (1/2) (1/2)
      ≠ glyph_target specDefault (ring_inner_r specDefault) / max (1/2 : ℚ) (1/2) := by
  norm_num [glyph_stroke_attr, glyph_stroke_w, glyph_scale, glyph_target, glyph_available_d, ring_inner_r, ring_outer_r, specDefault, max_def, min_def]

/-- C4 amended: the uniform scale factor equals target size divided by
`max(outline width, outline height, 1)`; whenever the larger outline
dimension is at least 1 font unit this coincides with the claimed divisor
`max(outline width, outline height)`. -/
theorem glyph_scale_amended (spec : LogoSpec) (rir width height : ℚ)
    (h : 1 ≤ max width height) :
    glyph_scale spec rir width height = glyph_target spec rir / max width height := by
  unfold glyph_scale
  rw [← max_assoc, max_eq_left h]

/-- Witness for the amended C4 at a 1000 by 1400 outline. -/
theorem glyph_scale_amended_witness :
    (1 : ℚ) ≤ max 1000 1400 ∧
    glyph_scale specDefault (ring_inner_r specDefault) 1000 1400
      = glyph_target specDefault (ring_inner_r specDefault) / max 1000 1400 :=
  ⟨by norm_num,
    glyph_scale_amended specDefault (ring_inner_r specDefault) 1000 1400 (by norm_num)⟩

/-- C5: in `advance` centering mode the horizontal center used by the
transform is the bounding-box center plus the delta between half the advance
width and the bounding-box horizontal center; equivalently, it differs from
the `outline` mode center by exactly that delta. -/
theorem advance_centering_delta (xmin width advance_width : ℚ) :
    glyph_center_x "advance" xmin width advance_width
      = (xmin + width / 2) + (advance_width / 2 - (xmin + width / 2)) ∧
    glyph_center_x "advance" xmin width advance_width
      = glyph_center_x "outline" xmin width advance_width
        + (advance_width / 2 - (xmin + width / 2)) := by
  have h1 : glyph_delta_x "advance" xmin width advance_width
      = advance_width / 2 - (xmin + width / 2) := if_pos rfl
  have h2 : glyph_delta_x "outline" xmin width advance_width = 0 := if_neg (by decide)
  unfold glyph_center_x
  rw [h1, h2]
  constructor <;> ring

/-- C6: with everything else fixed, a larger gap never yields a larger
available glyph diameter, in each of the three letter strategies. -/
theorem available_diameter_gap_monotone (spec : LogoSpec) (rir g1 g2 : ℚ)
    (h : g1 ≤ g2) :
    manual_available_d { spec with gap := g2 } rir
      ≤ manual_available_d { spec with gap := g1 } rir ∧
    text_available_d { spec with gap := g2 } rir
      ≤ text_available_d { spec with gap := g1 } rir ∧
    glyph_available_d { spec with gap := g2 } rir
      ≤ glyph_available_d { spec with gap := g1 } rir := by
  refine ⟨?_, ?_, ?_⟩ <;>
    · simp only [manual_available_d, text_available_d, glyph_available_d]
      exact max_le_max le_rfl (by linarith)

/-- Witness for C6: gaps 1 and 2 at the default configuration. -/
theorem available_diameter_gap_monotone_witness :
    (1 : ℚ) ≤ 2 ∧
    (manual_available_d { specDefault with gap := 2 } 236
      ≤ manual_available_d { specDefault with gap := 1 } 236 ∧
    text_available_d { specDefault with gap := 2 } 236
      ≤ text_available_d { specDefault with gap := 1 } 236 ∧
    glyph_available_d { specDefault with gap := 2 } 236
      ≤ glyph_available_d { specDefault with gap := 1 } 236) :=
  ⟨by norm_num, available_diameter_gap_monotone specDefault 236 1 2 (by norm_num)⟩

/-- C7: whenever the ring margin is at least half the size (the thickness
being nonnegative as the data model requires), both ring radii clamp to 0 and
`make_svg` in manual and in text mode still returns, without error, a string
that is an instance of the assembled document template.  All geometric
definitions above are total functions, so degenerate geometry is never an
error. -/
theorem degenerate_margin_ok (env : FontEnv) (spec : LogoSpec) (colors : List String)
    (letter : Char) (ff : Option String) (gc : String) (fl : Bool)
    (hm : spec.size / 2 ≤ spec.ring_margin) (ht : 0 ≤ spec.ring_thickness) :
    ring_outer_r spec = 0 ∧ ring_inner_r spec = 0 ∧
    (∃ body, make_svg env spec colors letter "manual" ff gc fl
      = .ok (svgDocument spec colors body)) ∧
    (∃ body, make_svg env spec colors letter "text" ff gc fl
      = .ok (svgDocument spec colors body)) := by
  have h1 : ring_outer_r spec = 0 := max_eq_left (by linarith)
  have h2 : ring_inner_r spec = 0 := by
    unfold ring_inner_r
    rw [h1]
    exact max_eq_left (by linarith)
  exact ⟨h1, h2, ⟨_, rfl⟩, ⟨_, rfl⟩⟩

/-- Witness for C7 at size 100, margin 60, thickness 12. -/
theorem degenerate_margin_ok_witness :
    specDegenerate.size / 2 ≤ specDegenerate.ring_margin ∧
    (0 : ℚ) ≤ specDegenerate.ring_thickness ∧
    (ring_outer_r specDegenerate = 0 ∧ ring_inner_r specDegenerate = 0 ∧
    (∃ body, make_svg envNoFiles specDegenerate DEFAULT_COLORS (Char.ofNat 80) "manual" none "advance" false
      = .ok (svgDocument specDegenerate DEFAULT_COLORS body)) ∧
    (∃ body, make_svg envNoFiles specDegenerate DEFAULT_COLORS (Char.ofNat 80) "text" none "advance" false
      = .ok (svgDocument specDegenerate DEFAULT_COLORS body))) :=
  ⟨by norm_num [specDegenerate], by norm_num [specDegenerate],
    degenerate_margin_ok envNoFiles specDegenerate DEFAULT_COLORS (Char.ofNat 80)
      none "advance" false (by norm_num [specDegenerate]) (by norm_num [specDegenerate])⟩

/-- C8: when the fontTools capability is available but the font path names no
existing file, the glyph strategy makes `make_svg` fail with the
file-not-found error naming the path, whatever font-loading function the
environment carries (so no font data is ever read), and no document is
produced. -/
theorem glyph_missing_font_file_error (env : FontEnv) (spec : LogoSpec)
    (colors : List String) (letter : Char) (p gc : String) (fl : Bool)
    (h1 : env.fontToolsAvailable = true) (h2 : env.fileExists p = false) :
    make_svg env spec colors letter "glyph" (some p) gc fl
      = .error (.fileNotFound ("Font file not found: " ++ p)) := by
  simp [make_svg, glyph_letter, h1, h2]

/-- Witness for C8: environment where no path exists, path missing.ttf. -/
theorem glyph_missing_font_file_error_witness :
    envNoFiles.fontToolsAvailable = true ∧
    envNoFiles.fileExists "missing.ttf" = false ∧
    make_svg envNoFiles specDefault DEFAULT_COLORS (Char.ofNat 80) "glyph"
        (some "missing.ttf") "advance" false
      = .error (.fileNotFound ("Font file not found: " ++ "missing.ttf")) :=
  ⟨rfl, rfl,
    glyph_missing_font_file_error envNoFiles specDefault DEFAULT_COLORS (Char.ofNat 80)
      "missing.ttf" "advance" false rfl rfl⟩

/-- C9: `make_svg` is a pure function of its arguments; in manual and text
mode it does not consult the font environment at all, so two invocations with
identical configuration, even under different ambient environments, return
identical document strings. -/
theorem make_svg_deterministic (env1 env2 : FontEnv) (spec : LogoSpec)
    (colors : List String) (letter : Char) (ff : Option String) (gc : String)
    (fl : Bool) :
    make_svg env1 spec colors letter "manual" ff gc fl
      = make_svg env2 spec colors letter "manual" ff gc fl ∧
    make_svg env1 spec colors letter "text" ff gc fl
      = make_svg env2 spec colors letter "text" ff gc fl :=
  ⟨rfl, rfl⟩

/-- C10: each strategy applies the clamped scale fraction
`max(0, min(1, u_scale))` to the available diameter: the first manual box,
the initial text font size and the glyph target size all equal
`available_d * clamp` for every real `u_scale`, and hence never exceed the
available diameter. -/
theorem u_scale_clamped (spec : LogoSpec) (rir : ℚ) :
    manual_u_box0 spec rir = manual_available_d spec rir * max 0 (min 1 spec.u_scale) ∧
    text_font_size0 spec rir = text_available_d spec rir * max 0 (min 1 spec.u_scale) ∧
    glyph_target spec rir = glyph_available_d spec rir * max 0 (min 1 spec.u_scale) ∧
    manual_u_box0 spec rir ≤ manual_available_d spec rir ∧
    text_font_size0 spec rir ≤ text_available_d spec rir ∧
    glyph_target spec rir ≤ glyph_available_d spec rir := by
  have havail : (0 : ℚ) ≤ manual_available_d spec rir := le_max_left 0 _
  have hprod : 0 ≤ manual_available_d spec rir * max 0 (min 1 spec.u_scale) :=
    mul_nonneg havail (clamp_nonneg _)
  have heq : manual_u_box0 spec rir
      = manual_available_d spec rir * max 0 (min 1 spec.u_scale) :=
    max_eq_right hprod
  have hbound : ∀ a : ℚ, 0 ≤ a → a * max 0 (min 1 spec.u_scale) ≤ a := fun a ha =>
    mul_le_of_le_one_right ha (clamp_le_one _)
  refine ⟨heq, rfl, rfl, ?_, ?_, ?_⟩
  · rw [heq]
    exact hbound _ havail
  · exact hbound _ (le_max_left 0 _)
  · exact hbound _ (le_max_left 0 _)
